import Mathlib

/-!
Verification development for the ctrld DNS proxy core.

Shallow embedding of three source units:
* `internal/dns/nm.go` — the NetworkManager OS configurator (`SetDNS`,
  `trySet`): translation of an `OSConfig` into the D-Bus settings map
  (per-family nameserver wire lists, combined search-domain list,
  per-family `dns-priority`), and the bounded retry driver.
* the Windows nameserver-discovery unit (`nameservers`,
  `adapterAddresses`): the buffer-growth loop around the adapter
  enumeration call, and per-entry sockaddr decoding with the
  `fe c0` filter, formatted as `host:53` strings exactly as
  `net.IP.String` / `net.JoinHostPort` do.
* the DoH/DoH3 resolver (`dohResolver.Resolve`): RFC 8484 GET request
  construction (unpadded URL-safe base64), response handling, and the
  DoH3 close-round-tripper-on-transport-error action.

Go loops become structural recursion; the OS / network is an oracle
passed in as a function or a response list; machine integers are `Nat`
(bytes are `Fin 256` where byte bounds matter); fallible operations
return `Option`/`Except`.
-/

namespace Ctrld

/-! ## internal/dns/nm.go : data model -/

/-- `netip.Addr` as used by `trySet`: either a 4-byte IPv4 address or a
16-byte IPv6 address (`bytes` lists the 16 bytes in order).  `Is4` and
`As16` below mirror the `netip` methods used by the source. -/
inductive IPAddr where
  | v4 (a b c d : Fin 256)
  | v6 (bytes : List (Fin 256))
deriving DecidableEq

/-- `netip.Addr.Is4`. -/
def IPAddr.is4 : IPAddr → Bool
  | .v4 _ _ _ _ => true
  | .v6 _ => false

/-- `netip.Addr.As16`: an IPv4 address maps to its IPv4-in-IPv6 form
`::ffff:a.b.c.d`; an IPv6 address is its own 16 bytes. -/
def IPAddr.as16 : IPAddr → List (Fin 256)
  | .v4 a b c d => [0, 0, 0, 0, 0, 0, 0, 0, 0, 0, 255, 255, a, b, c, d]
  | .v6 bs => bs

/-- `endian.Native.Uint32` on the first four bytes of a byte slice,
modelled for a little-endian host (amd64/arm64), which is what the
source runs on.  Only injectivity of this encoding matters for the
claims, and that holds for either endianness. -/
def uint32LE (bs : List (Fin 256)) : Nat :=
  (bs.getD 0 0).val + 256 * (bs.getD 1 0).val + 65536 * (bs.getD 2 0).val
    + 16777216 * (bs.getD 3 0).val

/-- `OSConfig`.  Domains (`dnsname.FQDN` in the source) are modelled as
the bare domain string without the trailing separator; FQDN equality in
the source corresponds to string equality here, and
`FQDN.WithTrailingDot` appends the separator. -/
structure OSConfig where
  nameservers : List IPAddr
  searchDomains : List String
  matchDomains : List String
deriving DecidableEq

/-- `dnsname.FQDN.WithTrailingDot`. -/
def withTrailingDot (d : String) : String := d ++ "."

/-- Loop body of the nameserver-translation loop in `trySet`: an IPv4
address is appended to `dnsv4` as a native-endian `uint32` of the last
4 bytes of `As16`; anything else is appended to `dnsv6` as its 16
bytes. -/
def dnsStep (acc : List Nat × List (List (Fin 256))) (ip : IPAddr) :
    List Nat × List (List (Fin 256)) :=
  let b := ip.as16
  if ip.is4 then (acc.1 ++ [uint32LE (b.drop 12)], acc.2)
  else (acc.1, acc.2 ++ [b])

/-- The `(dnsv4, dnsv6)` pair built by `trySet` from
`config.Nameservers`. -/
def dnsLists (c : OSConfig) : List Nat × List (List (Fin 256)) :=
  c.nameservers.foldl dnsStep ([], [])

/-- `highestPriority = int32(-1 << 31)`. -/
def highestPriority : Int := -(2 ^ 31)

/-- `mediumPriority = int32(1)`. -/
def mediumPriority : Int := 1

/-- `lowerPriority = int32(200)`. -/
def lowerPriority : Int := 200

/-- One of the two search-domain loops in `trySet`.  `render` is what
the loop appends for a fresh domain (`dom.WithTrailingDot()` for the
`SearchDomains` loop, `"~" + dom.WithTrailingDot()` for the
`MatchDomains` loop); `seen` is the shared `seen` set (a list with
membership standing for the Go map), `out` the `search` slice so far. -/
def addDoms (render : String → String) :
    List String → List String → List String → List String × List String
  | [], seen, out => (seen, out)
  | d :: ds, seen, out =>
    if d ∈ seen then addDoms render ds seen out
    else addDoms render ds (d :: seen) (out ++ [render d])

/-- The combined `search` list built by `trySet`: deduplicated
`SearchDomains` with trailing dots, then deduplicated-against-the-same-
set `MatchDomains` with a `~` tag, then `~.` when `MatchDomains` is
empty. -/
def searchList (c : OSConfig) : List String :=
  let s1 := addDoms withTrailingDot c.searchDomains [] []
  let s2 := addDoms (fun d => "~" ++ withTrailingDot d) c.matchDomains s1.1 s1.2
  if c.matchDomains = [] then s2.2 ++ ["~."] else s2.2

/-- D-Bus variant values that `trySet` writes into the settings map. -/
inductive NMVariant where
  | u32List (xs : List Nat)
  | byteLists (xs : List (List (Fin 256)))
  | strList (xs : List String)
  | int32 (i : Int)
  | str (s : String)
  | boolean (b : Bool)
  | addrData (xs : List (String × Nat))
deriving DecidableEq

/-- One section (`ipv4` / `ipv6`) of the connection-settings map:
key/variant pairs.  The Go map is unordered; the association list is
read through `getKey` (first binding wins) and written through
`setKey`/`delKey`, which keep one binding per key. -/
abbrev NMSection := List (String × NMVariant)

/-- Go map assignment `m[k] = v`. -/
def setKey (m : NMSection) (k : String) (v : NMVariant) : NMSection :=
  (k, v) :: m.filter (fun p => p.1 != k)

/-- Go `delete(m, k)`. -/
def delKey (m : NMSection) (k : String) : NMSection :=
  m.filter (fun p => p.1 != k)

/-- Go map lookup `m[k]`. -/
def getKey (m : NMSection) (k : String) : Option NMVariant :=
  (m.find? (fun p => p.1 == k)).map (fun p => p.2)

/-- The `ipv4` and `ipv6` sections of the applied-connection settings.
Other sections are carried through `trySet` untouched and are omitted. -/
structure NMSettings where
  ipv4 : NMSection
  ipv6 : NMSection
deriving DecidableEq

/-- The settings mutation performed by `trySet` between
`GetAppliedConnection` and `Reapply`: `st` is the fetched settings,
`addrs6` the interface's current IPv6 addresses as read from the live
stack (each staged with a /128 length), `c` the desired
configuration. -/
def trySetSettings (st : NMSettings) (c : OSConfig) (addrs6 : List String) :
    NMSettings :=
  let dns := dnsLists c
  let dnsv4 := dns.1
  let dnsv6 := dns.2
  let search := searchList c
  let m4a := setKey st.ipv4 "dns" (NMVariant.u32List dnsv4)
  let m4b := setKey m4a "dns-search" (NMVariant.strList search)
  let m4c := setKey m4b "dns-priority" (NMVariant.int32
    (if dnsv4 = [] then lowerPriority
     else if c.matchDomains ≠ [] then mediumPriority
     else highestPriority))
  let m6a := setKey st.ipv6 "method" (NMVariant.str "auto")
  let m6b := if addrs6 ≠ [] then
      setKey m6a "address-data" (NMVariant.addrData (addrs6.map (fun a => (a, 128))))
    else m6a
  let m6c := setKey m6b "ignore-auto-routes" (NMVariant.boolean true)
  let m6d := setKey m6c "ignore-auto-dns" (NMVariant.boolean true)
  let m6e := setKey m6d "never-default" (NMVariant.boolean true)
  let m6f := setKey m6e "dns" (NMVariant.byteLists dnsv6)
  let m6g := setKey m6f "dns-search" (NMVariant.strList search)
  let m6h := setKey m6g "dns-priority" (NMVariant.int32
    (if dnsv6 = [] then lowerPriority
     else if c.matchDomains ≠ [] then mediumPriority
     else highestPriority))
  let m4' := delKey (delKey m4c "addresses") "routes"
  let m6' := delKey (delKey m6h "addresses") "routes"
  ⟨m4', m6'⟩

/-! ## internal/dns/nm.go : the SetDNS retry driver -/

/-- `time.Sleep(10 * time.Millisecond)` between attempts. -/
def retrySleepMillis : Nat := 10

/-- The `SetDNS` loop: `for ctx.Err() == nil { err = trySet(...); if
err == nil break; sleep }; return err`.  Time is abstracted into
`budget`, the number of times the deadline check `ctx.Err() == nil`
still passes (each failed attempt plus its sleep consumes one tick);
`outcomes i` is the result of the i-th `trySet` call (`none` =
success).  Returns the final `err` and the number of attempts made. -/
def setDNSLoop (outcomes : Nat → Option String) :
    Nat → Nat → Option String → Option String × Nat
  | 0, i, last => (last, i)
  | b + 1, i, _last =>
    match outcomes i with
    | none => (none, i + 1)
    | some e => setDNSLoop outcomes b (i + 1) (some e)

/-- `nmManager.SetDNS` as driven by its retry loop. -/
def setDNSRetry (outcomes : Nat → Option String) (budget : Nat) :
    Option String × Nat :=
  setDNSLoop outcomes budget 0 none

/-! ## Windows discovery : adapterAddresses buffer loop -/

/-- One OS answer to `windows.GetAdaptersAddresses`: success (with the
final value of `l`), `ERROR_BUFFER_OVERFLOW` together with the required
size written back through `&l`, or any other error. -/
inductive GAAResponse where
  | success (lOut : Nat)
  | bufferOverflow (required : Nat)
  | otherError
deriving DecidableEq

/-- Result of the `adapterAddresses` loop: a successful parse, the
`l == 0` empty success, a fatal non-overflow OS error, the
no-growth overflow error, or running off the supplied response list
(the real OS always answers, so theorems never reach this case). -/
inductive GAAResult where
  | ok
  | okEmpty
  | osError
  | noGrowth
  | outOfResponses
deriving DecidableEq

/-- `l := uint32(15000)`, the recommended initial buffer size. -/
def initialBufSize : Nat := 15000

/-- The `for` loop of `adapterAddresses`: each iteration allocates a
buffer of the current size and performs one OS call.  Returns the
outcome and the number of OS calls made. -/
def adapterLoop : List GAAResponse → Nat → GAAResult × Nat
  | [], _ => (GAAResult.outOfResponses, 0)
  | GAAResponse.success lOut :: _, _ =>
    ((if lOut = 0 then GAAResult.okEmpty else GAAResult.ok), 1)
  | GAAResponse.bufferOverflow req :: rest, bufLen =>
    if req ≤ bufLen then (GAAResult.noGrowth, 1)
    else
      let r := adapterLoop rest req
      (r.1, r.2 + 1)
  | GAAResponse.otherError :: _, _ => (GAAResult.osError, 1)

/-- `adapterAddresses`, starting from the recommended size. -/
def adapterAddressesRun (resps : List GAAResponse) : GAAResult × Nat :=
  adapterLoop resps initialBufSize

/-! ## Windows discovery : nameservers -/

/-- The result of `dns.Address.Sockaddr.Sockaddr()` for one DNS-server
entry: an IPv4 sockaddr (4 address bytes), an IPv6 sockaddr (16 address
bytes), or an unexpected type. -/
inductive Sockaddr where
  | inet4 (a b c d : Nat)
  | inet6 (bytes : List Nat)
  | other
deriving DecidableEq

/-- One `IpAdapterAddresses` record, reduced to its DNS-server list;
`none` stands for an entry whose `Sockaddr()` call returned an error. -/
structure Adapter where
  dnsAddrs : List (Option Sockaddr)
deriving DecidableEq

/-- Lower-case hex digit. -/
def hexDigitChar (n : Nat) : Char :=
  if n < 10 then Char.ofNat (48 + n) else Char.ofNat (87 + n)

/-- Minimal-width lower-case hex of `n` (fuel-bounded; 8 nibbles cover
every 16-bit group value). -/
def natToHexAux : Nat → Nat → List Char
  | 0, _ => []
  | f + 1, n => if n = 0 then [] else natToHexAux f (n / 16) ++ [hexDigitChar (n % 16)]

/-- `appendHex` from Go's net package: minimal lower-case hex, `0` for
zero. -/
def natToHex (n : Nat) : String :=
  if n = 0 then "0" else String.mk (natToHexAux 8 n)

/-- The eight 16-bit groups of a 16-byte IPv6 address. -/
def groups16 (bytes : List Nat) : List Nat :=
  (List.range 8).map (fun i => 256 * bytes.getD (2 * i) 0 + bytes.getD (2 * i + 1) 0)

/-- Length of the run of zero groups at the head of the list. -/
def runLen : List Nat → Nat
  | 0 :: rest => 1 + runLen rest
  | _ => 0

/-- The zero-run scan of `net.IP.String`: remember the leftmost longest
run of zero groups (`(start, length)` in groups).  Go's loop skips past
each run once measured; scanning every position instead is equivalent,
because the runs starting inside a recorded run are strictly shorter
and the comparison that replaces the recorded run is strict. -/
def bestRunAux : List Nat → Nat → Option (Nat × Nat) → Option (Nat × Nat)
  | [], _, best => best
  | g :: rest, i, best =>
    let r := runLen (g :: rest)
    let best' := if r = 0 then best else
      match best with
      | none => some (i, r)
      | some (s, len) => if r > len then some (i, r) else some (s, len)
    bestRunAux rest (i + 1) best'

/-- The run actually elided by `net.IP.String`: the leftmost longest
zero run, but only when it spans at least two groups. -/
def bestZeroRun (gs : List Nat) : Option (Nat × Nat) :=
  match bestRunAux gs 0 none with
  | none => none
  | some (s, len) => if len ≤ 1 then none else some (s, len)

/-- Render the eight groups with `::` elision, as `net.IP.String`
does. -/
def renderGroups (gs : List Nat) : String :=
  match bestZeroRun gs with
  | none => String.intercalate ":" (gs.map natToHex)
  | some (s, len) =>
    String.intercalate ":" ((gs.take s).map natToHex) ++ "::"
      ++ String.intercalate ":" ((gs.drop (s + len)).map natToHex)

/-- Dotted-quad rendering of an IPv4 address, as Go prints it. -/
def ipv4String (a b c d : Nat) : String :=
  Nat.repr a ++ "." ++ Nat.repr b ++ "." ++ Nat.repr c ++ "." ++ Nat.repr d

/-- `net.IP.String` on a 16-byte address: dotted quad when the bytes
form an IPv4-in-IPv6 address (Go's `To4` test), grouped hex with `::`
elision otherwise. -/
def ipString (bytes : List Nat) : String :=
  if bytes.take 10 = List.replicate 10 0 ∧ bytes.getD 10 0 = 255 ∧ bytes.getD 11 0 = 255 then
    ipv4String (bytes.getD 12 0) (bytes.getD 13 0) (bytes.getD 14 0) (bytes.getD 15 0)
  else renderGroups (groups16 bytes)

/-- `net.JoinHostPort`: brackets the host when it contains a colon
(the byte scan of the source is a character scan here; `:` is
single-byte ASCII). -/
def joinHostPort (host port : String) : String :=
  if host.data.contains ':' then "[" ++ host ++ "]:" ++ port else host ++ ":" ++ port

/-- Per-entry body of the inner loop of `nameservers`: decode the
sockaddr (errors and unexpected types are skipped), build the 16-byte
`net.IP` (IPv4 via `net.IPv4`, hence in IPv4-in-IPv6 form), drop IPv6
addresses whose first two bytes are `fe c0`, and format the rest as
`host:53`. -/
def nameserverOfEntry : Option Sockaddr → Option String
  | none => none
  | some (Sockaddr.inet4 a b c d) =>
    some (joinHostPort (ipString ([0, 0, 0, 0, 0, 0, 0, 0, 0, 0, 255, 255, a, b, c, d])) "53")
  | some (Sockaddr.inet6 bytes) =>
    if bytes.getD 0 0 = 0xfe ∧ bytes.getD 1 0 = 0xc0 then none
    else some (joinHostPort (ipString bytes) "53")
  | some Sockaddr.other => none

/-- `nameservers` after a successful enumeration: adapters in order,
each adapter's DNS entries in order. -/
def nameservers (aas : List Adapter) : List String :=
  (aas.map (fun aa => aa.dnsAddrs.filterMap nameserverOfEntry)).flatten

/-! ## DoH / DoH3 resolver -/

/-- The URL-safe base64 alphabet. -/
def b64Chars : List Char :=
  "ABCDEFGHIJKLMNOPQRSTUVWXYZabcdefghijklmnopqrstuvwxyz0123456789-_".toList

/-- Character for a 6-bit value. -/
def b64Char (n : Nat) : Char := b64Chars.getD n 'A'

/-- `base64.RawURLEncoding.EncodeToString`: URL-safe alphabet, no
padding. -/
def base64RawURL : List Nat → List Char
  | b0 :: b1 :: b2 :: rest =>
    b64Char (b0 / 4) :: b64Char (b0 % 4 * 16 + b1 / 16) ::
      b64Char (b1 % 16 * 4 + b2 / 64) :: b64Char (b2 % 64) :: base64RawURL rest
  | [b0, b1] => [b64Char (b0 / 4), b64Char (b0 % 4 * 16 + b1 / 16), b64Char (b1 % 16 * 4)]
  | [b0] => [b64Char (b0 / 4), b64Char (b0 % 4 * 16)]
  | [] => []

/-- String form of the encoding. -/
def b64String (data : List Nat) : String := String.mk (base64RawURL data)

/-- The request `Resolve` builds (method, URL, headers in the order the
source sets them). -/
structure HttpRequest where
  method : String
  url : String
  headers : List (String × String)
deriving DecidableEq

/-- An HTTP response: status code and (fully read) body bytes. -/
structure HttpResponse where
  statusCode : Nat
  body : List Nat
deriving DecidableEq

/-- Outcome of `c.Do(req)` followed by `io.ReadAll(resp.Body)`:
either the exchange itself fails, or a response arrives and reading its
body yields `readError` (`none` = the full body was read). -/
inductive HttpResult where
  | doError (e : String)
  | response (resp : HttpResponse) (readError : Option String)

/-- The error cases of `Resolve`, one per `return nil, err` site. -/
inductive ResolveError where
  | packError (e : String)
  | doError (e : String)
  | readError (e : String)
  | wrongResponse (body : List Nat) (status : Nat)
  | unpackError (e : String)
deriving DecidableEq

/-- `dohResolver`: endpoint, DoH3 flag, and the two transport handles
(identified by id; the HTTP/3 round-tripper id is what `Close` acts
on). -/
structure DohResolverS where
  endpoint : String
  isDoH3 : Bool
  transport : Nat
  http3RoundTripper : Nat
deriving DecidableEq

/-- The GET request `Resolve` issues for packed query bytes `data`:
`<endpoint>?dns=<base64url>` with the two `application/dns-message`
headers.  (`http.NewRequestWithContext` can only fail on a malformed
endpoint, independently of the message; request construction is
modelled as total.) -/
def dohRequest (endpoint : String) (data : List Nat) : HttpRequest :=
  { method := "GET"
    url := endpoint ++ "?dns=" ++ b64String data
    headers := [("Content-Type", "application/dns-message"),
                ("Accept", "application/dns-message")] }

/-- Everything observable about one `Resolve` call: its return value,
the resolver state afterwards (the method never reassigns any field,
so this always equals the input), the requests issued, and the ids of
the round-trippers it called `Close()` on. -/
structure ResolveOutput (Msg : Type) where
  result : Except ResolveError Msg
  resolverAfter : DohResolverS
  requests : List HttpRequest
  closedRoundTrippers : List Nat

/-- `dohResolver.Resolve`.  The DNS codec is external, so `pack` /
`unpack` are parameters; `doer` is the HTTP exchange oracle. -/
def dohResolve {Msg : Type} (pack : Msg → Except String (List Nat))
    (unpack : List Nat → Except String Msg)
    (doer : HttpRequest → HttpResult)
    (r : DohResolverS) (msg : Msg) : ResolveOutput Msg :=
  match pack msg with
  | Except.error e => ⟨Except.error (ResolveError.packError e), r, [], []⟩
  | Except.ok data =>
    let req := dohRequest r.endpoint data
    match doer req with
    | HttpResult.doError e =>
      ⟨Except.error (ResolveError.doError e), r, [req],
        if r.isDoH3 then [r.http3RoundTripper] else []⟩
    | HttpResult.response resp readErr =>
      match readErr with
      | some e => ⟨Except.error (ResolveError.readError e), r, [req], []⟩
      | none =>
        if resp.statusCode ≠ 200 then
          ⟨Except.error (ResolveError.wrongResponse resp.body resp.statusCode), r, [req], []⟩
        else
          match unpack resp.body with
          | Except.error e => ⟨Except.error (ResolveError.unpackError e), r, [req], []⟩
          | Except.ok answer => ⟨Except.ok answer, r, [req], []⟩

/-! ## Specification-side formulation of the combined search-domain list

The claim about the emitted search-domain list describes it as: tag all
`SearchDomains` entries, then all `MatchDomains` entries, deduplicate
jointly with first-seen-wins, render (`domain.` untagged, `~domain.`
tagged), and append `~.` exactly when `MatchDomains` is empty.  These
definitions follow that wording; the theorem for the claim proves them
equal to `searchList`, which follows the source. -/

/-- The `seen` set after one of the `trySet` loops has processed
`ds`. -/
def seenAfter : List String → List String → List String
  | seen, [] => seen
  | seen, d :: ds => seenAfter (if d ∈ seen then seen else d :: seen) ds

/-- Joint first-seen-wins deduplication of tagged domains. -/
def dedupTagged : List String → List (String × Bool) → List (String × Bool)
  | _, [] => []
  | seen, (d, t) :: rest =>
    if d ∈ seen then dedupTagged seen rest
    else (d, t) :: dedupTagged (d :: seen) rest

/-- Rendering of one tagged domain: match-routing entries carry a `~`
tag, both forms are fully qualified. -/
def renderTagged (p : String × Bool) : String :=
  if p.2 then "~" ++ withTrailingDot p.1 else withTrailingDot p.1

/-- The combined search-domain list as the specification words it. -/
def searchListSpec (c : OSConfig) : List String :=
  (dedupTagged [] (c.searchDomains.map (fun d => (d, false))
      ++ c.matchDomains.map (fun d => (d, true)))).map renderTagged
    ++ (if c.matchDomains = [] then ["~."] else [])

/-- Whether a string's first character is the `~` match-routing tag. -/
def isTildePrefixed (s : String) : Bool := s.data.head? == some '~'

/-! ## Concrete instances used by witnesses and counterexamples -/

/-- A DoH3 resolver holding round-tripper instance 42. -/
def c1Resolver : DohResolverS := ⟨"https://doh3.example", true, 7, 42⟩

/-- An HTTP oracle whose exchange always fails at the transport
level. -/
def c1Doer : HttpRequest → HttpResult := fun _ => HttpResult.doError "connection reset"

/-- A trivial concrete DNS codec over `Nat` messages: a message packs
to a one-byte body. -/
def natPack : Nat → Except String (List Nat) := fun n => Except.ok [n]

/-- The matching trivial unpack: a body unpacks to its length. -/
def natUnpack : List Nat → Except String Nat := fun bs => Except.ok bs.length

/-- A plain DoH resolver. -/
def c7Resolver : DohResolverS := ⟨"https://dns.example", false, 3, 4⟩

/-- An HTTP oracle answering 200 with a two-byte body. -/
def c7Doer : HttpRequest → HttpResult := fun _ => HttpResult.response ⟨200, [1, 2]⟩ none

/-- Attempt outcomes whose first two `trySet` calls fail. -/
def c9Outcomes : Nat → Option String := fun i => if i < 2 then some "not ready" else none

/-- A configuration whose match domains all also appear as search
domains. -/
def c10Config : OSConfig := ⟨[], ["corp", "lan"], ["corp"]⟩

/-- The 16 bytes of `fec1::`, an address inside `fec0::/10` whose
second byte is not exactly `c0`. -/
def fec1Bytes : List Nat := [0xfe, 0xc1] ++ List.replicate 14 0

/-- The 16 bytes of `fec0::`. -/
def fec0Bytes : List Nat := [0xfe, 0xc0] ++ List.replicate 14 0

/-! # Theorems

## Settings-map lookup lemmas -/

theorem find?_filter_ne (k k' : String) (h : k' ≠ k) :
    ∀ m : NMSection,
      List.find? (fun p => p.1 == k') (List.filter (fun p => p.1 != k) m)
        = List.find? (fun p => p.1 == k') m := by
  intro m
  induction m with
  | nil => rfl
  | cons a m ih =>
    by_cases hak : a.1 = k
    · have h1 : (a.1 != k) = false := by simp [hak]
      have h2 : (a.1 == k') = false := by
        rw [hak]; exact beq_eq_false_iff_ne.mpr (Ne.symm h)
      simp [List.filter_cons, List.find?_cons, h1, h2, ih]
    · have h1 : (a.1 != k) = true := by simp [hak]
      by_cases hk' : a.1 = k'
      · have h2 : (a.1 == k') = true := by simp [hk']
        simp [List.filter_cons, h1, List.find?_cons, h2]
      · have h2 : (a.1 == k') = false := by simp [hk']
        simp [List.filter_cons, h1, List.find?_cons, h2, ih]

theorem getKey_setKey_self (m : NMSection) (k : String) (v : NMVariant) :
    getKey (setKey m k v) k = some v := by
  simp [getKey, setKey, List.find?_cons]

theorem getKey_setKey_ne (m : NMSection) (k k' : String) (v : NMVariant) (h : k' ≠ k) :
    getKey (setKey m k v) k' = getKey m k' := by
  have h2 : (k == k') = false := beq_eq_false_iff_ne.mpr (Ne.symm h)
  simp [getKey, setKey, List.find?_cons, h2, find?_filter_ne k k' h m]

theorem getKey_delKey_ne (m : NMSection) (k k' : String) (h : k' ≠ k) :
    getKey (delKey m k) k' = getKey m k' := by
  simp [getKey, delKey, find?_filter_ne k k' h m]

theorem getKey_trySet_ipv4_priority (st : NMSettings) (c : OSConfig) (addrs6 : List String) :
    getKey (trySetSettings st c addrs6).ipv4 "dns-priority"
      = some (NMVariant.int32 (if (dnsLists c).1 = [] then lowerPriority
          else if c.matchDomains ≠ [] then mediumPriority else highestPriority)) := by
  simp only [trySetSettings]
  rw [getKey_delKey_ne _ _ _ (by decide), getKey_delKey_ne _ _ _ (by decide),
    getKey_setKey_self]

theorem getKey_trySet_ipv6_priority (st : NMSettings) (c : OSConfig) (addrs6 : List String) :
    getKey (trySetSettings st c addrs6).ipv6 "dns-priority"
      = some (NMVariant.int32 (if (dnsLists c).2 = [] then lowerPriority
          else if c.matchDomains ≠ [] then mediumPriority else highestPriority)) := by
  simp only [trySetSettings]
  rw [getKey_delKey_ne _ _ _ (by decide), getKey_delKey_ne _ _ _ (by decide),
    getKey_setKey_self]

theorem getKey_trySet_ipv4_dns (st : NMSettings) (c : OSConfig) (addrs6 : List String) :
    getKey (trySetSettings st c addrs6).ipv4 "dns"
      = some (NMVariant.u32List (dnsLists c).1) := by
  simp only [trySetSettings]
  rw [getKey_delKey_ne _ _ _ (by decide), getKey_delKey_ne _ _ _ (by decide),
    getKey_setKey_ne _ _ _ _ (by decide), getKey_setKey_ne _ _ _ _ (by decide),
    getKey_setKey_self]

theorem getKey_trySet_ipv6_dns (st : NMSettings) (c : OSConfig) (addrs6 : List String) :
    getKey (trySetSettings st c addrs6).ipv6 "dns"
      = some (NMVariant.byteLists (dnsLists c).2) := by
  simp only [trySetSettings]
  rw [getKey_delKey_ne _ _ _ (by decide), getKey_delKey_ne _ _ _ (by decide),
    getKey_setKey_ne _ _ _ _ (by decide), getKey_setKey_ne _ _ _ _ (by decide),
    getKey_setKey_self]

theorem getKey_trySet_ipv4_search (st : NMSettings) (c : OSConfig) (addrs6 : List String) :
    getKey (trySetSettings st c addrs6).ipv4 "dns-search"
      = some (NMVariant.strList (searchList c)) := by
  simp only [trySetSettings]
  rw [getKey_delKey_ne _ _ _ (by decide), getKey_delKey_ne _ _ _ (by decide),
    getKey_setKey_ne _ _ _ _ (by decide), getKey_setKey_self]

theorem getKey_trySet_ipv6_search (st : NMSettings) (c : OSConfig) (addrs6 : List String) :
    getKey (trySetSettings st c addrs6).ipv6 "dns-search"
      = some (NMVariant.strList (searchList c)) := by
  simp only [trySetSettings]
  rw [getKey_delKey_ne _ _ _ (by decide), getKey_delKey_ne _ _ _ (by decide),
    getKey_setKey_ne _ _ _ _ (by decide), getKey_setKey_self]

/-! ## The nameserver wire lists -/

theorem foldl_dnsStep (l : List IPAddr) :
    ∀ acc : List Nat × List (List (Fin 256)),
      l.foldl dnsStep acc
        = (acc.1 ++ (l.filter (fun ip => ip.is4)).map (fun ip => uint32LE (ip.as16.drop 12)),
           acc.2 ++ (l.filter (fun ip => !ip.is4)).map IPAddr.as16) := by
  induction l with
  | nil => intro acc; simp
  | cons ip l ih =>
    intro acc
    cases hip : ip.is4 <;>
      simp [List.foldl_cons, dnsStep, hip, ih, List.filter_cons, List.append_assoc]

theorem dnsLists_eq (c : OSConfig) :
    dnsLists c
      = ((c.nameservers.filter (fun ip => ip.is4)).map (fun ip => uint32LE (ip.as16.drop 12)),
         (c.nameservers.filter (fun ip => !ip.is4)).map IPAddr.as16) := by
  simpa using foldl_dnsStep c.nameservers ([], [])

theorem uint32LE_quad (a b c d : Fin 256) :
    uint32LE [a, b, c, d] = a.val + 256 * b.val + 65536 * c.val + 16777216 * d.val := rfl

theorem uint32LE_quad_inj {a b c d a' b' c' d' : Fin 256}
    (h : uint32LE [a, b, c, d] = uint32LE [a', b', c', d']) :
    a = a' ∧ b = b' ∧ c = c' ∧ d = d' := by
  rw [uint32LE_quad, uint32LE_quad] at h
  have ha := a.isLt; have hb := b.isLt; have hc := c.isLt; have hd := d.isLt
  have ha' := a'.isLt; have hb' := b'.isLt; have hc' := c'.isLt; have hd' := d'.isLt
  refine ⟨Fin.ext ?_, Fin.ext ?_, Fin.ext ?_, Fin.ext ?_⟩ <;> omega

theorem is4_shape (ip : IPAddr) (h : ip.is4 = true) :
    ∃ a b c d, ip = IPAddr.v4 a b c d := by
  cases ip with
  | v4 a b c d => exact ⟨a, b, c, d, rfl⟩
  | v6 bs => simp [IPAddr.is4] at h

theorem not_is4_shape (ip : IPAddr) (h : ip.is4 = false) :
    ∃ bs, ip = IPAddr.v6 bs := by
  cases ip with
  | v4 a b c d => simp [IPAddr.is4] at h
  | v6 bs => exact ⟨bs, rfl⟩

/-- Claim C2 counterexample: repeating `10.0.0.1` in `Nameservers` makes the
emitted IPv4 wire list contain a duplicate entry, so the claimed
per-family deduplication does not happen. -/
theorem c2_counterexample :
    getKey (trySetSettings ⟨[], []⟩ ⟨[IPAddr.v4 10 0 0 1, IPAddr.v4 10 0 0 1], [], []⟩ []).ipv4 "dns"
      = some (NMVariant.u32List [16777226, 16777226])
    ∧ ¬ List.Nodup ([16777226, 16777226] : List Nat) := by
  constructor
  · decide
  · decide

/-- Claim C2 (as amended): `trySet` translates `config.Nameservers` to the
per-family wire lists in order and without any deduplication, so the
emitted lists are duplicate-free exactly when the configured
nameservers already are; under a duplicate-free `Nameservers`, both
emitted lists are duplicate-free. -/
theorem c2_wire_lists_nodup (c : OSConfig) (st : NMSettings) (addrs6 : List String)
    (h : c.nameservers.Nodup) :
    getKey (trySetSettings st c addrs6).ipv4 "dns"
      = some (NMVariant.u32List (dnsLists c).1)
    ∧ getKey (trySetSettings st c addrs6).ipv6 "dns"
      = some (NMVariant.byteLists (dnsLists c).2)
    ∧ (dnsLists c).1.Nodup ∧ (dnsLists c).2.Nodup := by
  refine ⟨getKey_trySet_ipv4_dns st c addrs6, getKey_trySet_ipv6_dns st c addrs6, ?_, ?_⟩
  · rw [dnsLists_eq]
    refine List.Nodup.map_on ?_ (h.filter _)
    intro x hx y hy hxy
    obtain ⟨hx', hx4⟩ := List.mem_filter.mp hx
    obtain ⟨hy', hy4⟩ := List.mem_filter.mp hy
    obtain ⟨a, b, cc, d, rfl⟩ := is4_shape x hx4
    obtain ⟨a', b', cc', d', rfl⟩ := is4_shape y hy4
    have : a = a' ∧ b = b' ∧ cc = cc' ∧ d = d' := by
      apply uint32LE_quad_inj
      simpa [IPAddr.as16] using hxy
    simp [this.1, this.2.1, this.2.2.1, this.2.2.2]
  · rw [dnsLists_eq]
    refine List.Nodup.map_on ?_ (h.filter _)
    intro x hx y hy hxy
    obtain ⟨hx', hx4⟩ := List.mem_filter.mp hx
    obtain ⟨hy', hy4⟩ := List.mem_filter.mp hy
    rw [Bool.not_eq_true'] at hx4 hy4
    obtain ⟨bs, rfl⟩ := not_is4_shape x (by simpa using hx4)
    obtain ⟨bs', rfl⟩ := not_is4_shape y (by simpa using hy4)
    simpa [IPAddr.as16] using hxy

/-- Claim C2 witness: a duplicate-free two-nameserver configuration, its
hypotheses discharged concretely. -/
theorem c2_witness :
    List.Nodup [IPAddr.v4 10 0 0 1, IPAddr.v4 10 0 0 2]
    ∧ (getKey (trySetSettings ⟨[], []⟩ ⟨[IPAddr.v4 10 0 0 1, IPAddr.v4 10 0 0 2], [], []⟩ ["fe80::1"]).ipv4 "dns"
        = some (NMVariant.u32List (dnsLists ⟨[IPAddr.v4 10 0 0 1, IPAddr.v4 10 0 0 2], [], []⟩).1)
      ∧ getKey (trySetSettings ⟨[], []⟩ ⟨[IPAddr.v4 10 0 0 1, IPAddr.v4 10 0 0 2], [], []⟩ ["fe80::1"]).ipv6 "dns"
        = some (NMVariant.byteLists (dnsLists ⟨[IPAddr.v4 10 0 0 1, IPAddr.v4 10 0 0 2], [], []⟩).2)
      ∧ (dnsLists ⟨[IPAddr.v4 10 0 0 1, IPAddr.v4 10 0 0 2], [], []⟩).1.Nodup
      ∧ (dnsLists ⟨[IPAddr.v4 10 0 0 1, IPAddr.v4 10 0 0 2], [], []⟩).2.Nodup) :=
  ⟨by decide,
   c2_wire_lists_nodup ⟨[IPAddr.v4 10 0 0 1, IPAddr.v4 10 0 0 2], [], []⟩ ⟨[], []⟩ ["fe80::1"] (by decide)⟩

/-! ## Priorities -/

/-- Claim C8: a configuration with zero nameservers writes the lowest
priority tier (200) into both the ipv4 and ipv6 sections, whatever the
search and match domains are. -/
theorem c8_empty_nameservers_lowest (c : OSConfig) (st : NMSettings) (addrs6 : List String)
    (h : c.nameservers = []) :
    getKey (trySetSettings st c addrs6).ipv4 "dns-priority"
      = some (NMVariant.int32 lowerPriority)
    ∧ getKey (trySetSettings st c addrs6).ipv6 "dns-priority"
      = some (NMVariant.int32 lowerPriority) := by
  have hd : dnsLists c = ([], []) := by simp [dnsLists, h]
  constructor
  · rw [getKey_trySet_ipv4_priority, hd]; rfl
  · rw [getKey_trySet_ipv6_priority, hd]; rfl

/-- Claim C8 witness: empty nameservers with non-empty search and match
domains. -/
theorem c8_witness :
    (⟨[], ["a"], ["b"]⟩ : OSConfig).nameservers = []
    ∧ (getKey (trySetSettings ⟨[], []⟩ ⟨[], ["a"], ["b"]⟩ ["fe80::1"]).ipv4 "dns-priority"
        = some (NMVariant.int32 lowerPriority)
      ∧ getKey (trySetSettings ⟨[], []⟩ ⟨[], ["a"], ["b"]⟩ ["fe80::1"]).ipv6 "dns-priority"
        = some (NMVariant.int32 lowerPriority)) :=
  ⟨rfl, c8_empty_nameservers_lowest ⟨[], ["a"], ["b"]⟩ ⟨[], []⟩ ["fe80::1"] rfl⟩

/-- Claim C4 counterexample: with `Nameservers = [10.0.0.1]` (all IPv4) and
empty `MatchDomains`, the ipv6 section receives the lowest tier (200),
not the highest, so the claim's extension to both sections fails. -/
theorem c4_counterexample :
    getKey (trySetSettings ⟨[], []⟩ ⟨[IPAddr.v4 10 0 0 1], [], []⟩ []).ipv6 "dns-priority"
      = some (NMVariant.int32 lowerPriority)
    ∧ lowerPriority ≠ highestPriority := by
  constructor
  · decide
  · decide

/-- Claim C4 (as amended): with non-empty `Nameservers` and empty
`MatchDomains`, each settings section whose address family has at
least one nameserver receives the highest tier; a section whose family
has none receives the lowest tier instead. -/
theorem c4_full_routing_priority (c : OSConfig) (st : NMSettings) (addrs6 : List String)
    (_hns : c.nameservers ≠ []) (hmd : c.matchDomains = []) :
    ((dnsLists c).1 ≠ [] →
      getKey (trySetSettings st c addrs6).ipv4 "dns-priority"
        = some (NMVariant.int32 highestPriority))
    ∧ ((dnsLists c).1 = [] →
      getKey (trySetSettings st c addrs6).ipv4 "dns-priority"
        = some (NMVariant.int32 lowerPriority))
    ∧ ((dnsLists c).2 ≠ [] →
      getKey (trySetSettings st c addrs6).ipv6 "dns-priority"
        = some (NMVariant.int32 highestPriority))
    ∧ ((dnsLists c).2 = [] →
      getKey (trySetSettings st c addrs6).ipv6 "dns-priority"
        = some (NMVariant.int32 lowerPriority)) := by
  refine ⟨fun h4 => ?_, fun h4 => ?_, fun h6 => ?_, fun h6 => ?_⟩
  · rw [getKey_trySet_ipv4_priority]; simp [h4, hmd]
  · rw [getKey_trySet_ipv4_priority]; simp [h4]
  · rw [getKey_trySet_ipv6_priority]; simp [h6, hmd]
  · rw [getKey_trySet_ipv6_priority]; simp [h6]

/-- Claim C4 witness: one IPv4 nameserver, empty match domains; the ipv4
section gets the highest tier and the ipv6 section the lowest. -/
theorem c4_witness :
    ((⟨[IPAddr.v4 10 0 0 1], [], []⟩ : OSConfig).nameservers ≠ []
      ∧ (⟨[IPAddr.v4 10 0 0 1], [], []⟩ : OSConfig).matchDomains = []
      ∧ (dnsLists ⟨[IPAddr.v4 10 0 0 1], [], []⟩).1 ≠ []
      ∧ (dnsLists ⟨[IPAddr.v4 10 0 0 1], [], []⟩).2 = [])
    ∧ getKey (trySetSettings ⟨[], []⟩ ⟨[IPAddr.v4 10 0 0 1], [], []⟩ []).ipv4 "dns-priority"
        = some (NMVariant.int32 highestPriority)
    ∧ getKey (trySetSettings ⟨[], []⟩ ⟨[IPAddr.v4 10 0 0 1], [], []⟩ []).ipv6 "dns-priority"
        = some (NMVariant.int32 lowerPriority) := by
  have h := c4_full_routing_priority ⟨[IPAddr.v4 10 0 0 1], [], []⟩ ⟨[], []⟩ []
    (by decide) rfl
  exact ⟨⟨by decide, rfl, by decide, by decide⟩, h.1 (by decide), h.2.2.2 (by decide)⟩

/-! ## The combined search-domain list -/

theorem addDoms_eq (render : String → String) (t : Bool)
    (hrender : ∀ d, renderTagged (d, t) = render d) :
    ∀ (ds seen out : List String),
      addDoms render ds seen out
        = (seenAfter seen ds,
           out ++ (dedupTagged seen (ds.map (fun d => (d, t)))).map renderTagged)
  | [], seen, out => by simp [addDoms, seenAfter, dedupTagged]
  | d :: ds, seen, out => by
    by_cases hd : d ∈ seen
    · simp only [addDoms, seenAfter, List.map_cons, dedupTagged, if_pos hd]
      exact addDoms_eq render t hrender ds seen out
    · simp only [addDoms, seenAfter, List.map_cons, dedupTagged, if_neg hd]
      rw [addDoms_eq render t hrender ds (d :: seen) (out ++ [render d])]
      simp [hrender d, List.append_assoc]

theorem dedupTagged_append (t : Bool) :
    ∀ (ds : List String) (seen : List String) (ys : List (String × Bool)),
      dedupTagged seen (ds.map (fun d => (d, t)) ++ ys)
        = dedupTagged seen (ds.map (fun d => (d, t))) ++ dedupTagged (seenAfter seen ds) ys
  | [], seen, ys => by simp [dedupTagged, seenAfter]
  | d :: ds, seen, ys => by
    by_cases hd : d ∈ seen
    · simp only [List.map_cons, List.cons_append, dedupTagged, seenAfter, if_pos hd]
      exact dedupTagged_append t ds seen ys
    · simp only [List.map_cons, List.cons_append, dedupTagged, seenAfter, if_neg hd,
        List.append_eq]
      rw [dedupTagged_append t ds (d :: seen) ys]

/-- Claim C5: the combined search-domain list `trySet` writes into both
sections is exactly: the `SearchDomains` in order with trailing dots,
then the `MatchDomains` in order `~`-tagged with trailing dots, jointly
deduplicated first-seen-wins (a domain in both lists appears once, in
`SearchDomains` form), with a single `~.` appended if and only if
`MatchDomains` is empty — i.e. `searchList` agrees with the
specification-side `searchListSpec`. -/
theorem c5_search_list (c : OSConfig) (st : NMSettings) (addrs6 : List String) :
    getKey (trySetSettings st c addrs6).ipv4 "dns-search"
      = some (NMVariant.strList (searchList c))
    ∧ getKey (trySetSettings st c addrs6).ipv6 "dns-search"
      = some (NMVariant.strList (searchList c))
    ∧ searchList c = searchListSpec c := by
  refine ⟨getKey_trySet_ipv4_search st c addrs6, getKey_trySet_ipv6_search st c addrs6, ?_⟩
  simp only [searchList, searchListSpec]
  rw [addDoms_eq withTrailingDot false (fun d => rfl),
    addDoms_eq (fun d => "~" ++ withTrailingDot d) true (fun d => rfl),
    dedupTagged_append]
  by_cases hm : c.matchDomains = [] <;> simp [hm]

/-! ## No match-routing entries when match domains are all search
domains -/

theorem mem_seenAfter (x : String) :
    ∀ (ds seen : List String), x ∈ seenAfter seen ds ↔ x ∈ seen ∨ x ∈ ds
  | [], seen => by simp [seenAfter]
  | d :: ds, seen => by
    simp only [seenAfter]
    by_cases hd : d ∈ seen
    · rw [if_pos hd, mem_seenAfter x ds seen]
      constructor
      · rintro (h | h)
        · exact Or.inl h
        · exact Or.inr (List.mem_cons_of_mem d h)
      · rintro (h | h)
        · exact Or.inl h
        · rcases List.mem_cons.mp h with rfl | h
          · exact Or.inl hd
          · exact Or.inr h
    · rw [if_neg hd, mem_seenAfter x ds (d :: seen)]
      simp only [List.mem_cons]
      tauto

theorem addDoms_all_seen (render : String → String) :
    ∀ (ds seen out : List String), (∀ d ∈ ds, d ∈ seen) →
      addDoms render ds seen out = (seen, out)
  | [], _, _, _ => rfl
  | d :: ds, seen, out, h => by
    have hd : d ∈ seen := h d (List.mem_cons_self d ds)
    simp only [addDoms, if_pos hd]
    exact addDoms_all_seen render ds seen out (fun x hx => h x (List.mem_cons_of_mem d hx))

theorem mem_addDoms_out (render : String → String) :
    ∀ (ds seen out : List String) (x : String), x ∈ (addDoms render ds seen out).2 →
      x ∈ out ∨ ∃ d ∈ ds, x = render d
  | [], seen, out, x => fun hx => Or.inl hx
  | d :: ds, seen, out, x => fun hx => by
    by_cases hd : d ∈ seen
    · simp only [addDoms, if_pos hd] at hx
      rcases mem_addDoms_out render ds seen out x hx with h | ⟨d', hd', rfl⟩
      · exact Or.inl h
      · exact Or.inr ⟨d', List.mem_cons_of_mem d hd', rfl⟩
    · simp only [addDoms, if_neg hd] at hx
      rcases mem_addDoms_out render ds (d :: seen) (out ++ [render d]) x hx with h | ⟨d', hd', rfl⟩
      · rcases List.mem_append.mp h with h' | h'
        · exact Or.inl h'
        · refine Or.inr ⟨d, List.mem_cons_self d ds, ?_⟩
          simpa using h'
      · exact Or.inr ⟨d', List.mem_cons_of_mem d hd', rfl⟩

theorem isTildePrefixed_withTrailingDot (d : String) (h : isTildePrefixed d = false) :
    isTildePrefixed (withTrailingDot d) = false := by
  unfold isTildePrefixed withTrailingDot
  unfold isTildePrefixed at h
  rw [String.data_append]
  cases hd : d.data with
  | nil => simp [hd]
  | cons ch tl =>
    rw [hd] at h
    simpa using h

/-- Claim C10: when `MatchDomains` is non-empty but every match domain also
occurs in `SearchDomains` (and no search domain itself starts with
`~`), the emitted search-domain list contains no `~`-tagged entry at
all: the per-domain match entries are deduplicated away and the
blanket `~.` entry is suppressed. -/
theorem c10_no_match_entries (c : OSConfig)
    (hm : c.matchDomains ≠ [])
    (hsub : ∀ d ∈ c.matchDomains, d ∈ c.searchDomains)
    (hwf : ∀ d ∈ c.searchDomains, isTildePrefixed d = false) :
    (searchList c).all (fun s => !(isTildePrefixed s)) = true := by
  rw [List.all_eq_true]
  intro s hs
  rw [Bool.not_eq_eq_eq_not, Bool.not_true]
  unfold searchList at hs
  rw [if_neg hm] at hs
  have hfst : (addDoms withTrailingDot c.searchDomains [] []).1
      = seenAfter [] c.searchDomains := by
    rw [addDoms_eq withTrailingDot false (fun d => rfl)]
  have hall : ∀ d ∈ c.matchDomains, d ∈ (addDoms withTrailingDot c.searchDomains [] []).1 := by
    intro d hd
    rw [hfst, mem_seenAfter]
    exact Or.inr (hsub d hd)
  rw [addDoms_all_seen _ _ _ _ hall] at hs
  rcases mem_addDoms_out withTrailingDot c.searchDomains [] [] s hs with h | ⟨d, hd, rfl⟩
  · simp at h
  · exact isTildePrefixed_withTrailingDot d (hwf d hd)

/-- Claim C10 witness: match domain `corp` also a search domain; the emitted
list carries no `~` entry. -/
theorem c10_witness :
    (c10Config.matchDomains ≠ []
      ∧ (∀ d ∈ c10Config.matchDomains, d ∈ c10Config.searchDomains)
      ∧ (∀ d ∈ c10Config.searchDomains, isTildePrefixed d = false))
    ∧ (searchList c10Config).all (fun s => !(isTildePrefixed s)) = true :=
  ⟨⟨by decide, by decide, by decide⟩,
   c10_no_match_entries c10Config (by decide) (by decide) (by decide)⟩

/-! ## The adapter-enumeration buffer loop -/

theorem adapterLoop_growth (lOut : Nat) :
    ∀ (ss : List Nat) (bufLen : Nat), List.Chain' (· < ·) (bufLen :: ss) →
      adapterLoop (ss.map GAAResponse.bufferOverflow ++ [GAAResponse.success lOut]) bufLen
        = ((if lOut = 0 then GAAResult.okEmpty else GAAResult.ok), ss.length + 1)
  | [], bufLen, _ => by simp [adapterLoop]
  | s :: ss, bufLen, h => by
    rw [List.chain'_cons] at h
    have h1 : ¬ s ≤ bufLen := by omega
    simp only [List.map_cons, List.cons_append, adapterLoop, if_neg h1, List.append_eq]
    rw [adapterLoop_growth lOut ss s h.2]
    simp [Nat.add_assoc]

theorem adapterLoop_noGrowth (bad : Nat) (rest : List GAAResponse) :
    ∀ (ss : List Nat) (bufLen : Nat), List.Chain' (· < ·) (bufLen :: ss) →
      bad ≤ ss.getLastD bufLen →
      adapterLoop (ss.map GAAResponse.bufferOverflow ++ GAAResponse.bufferOverflow bad :: rest)
          bufLen
        = (GAAResult.noGrowth, ss.length + 1)
  | [], bufLen, _, hbad => by
    simp only [List.getLastD] at hbad
    simp [adapterLoop, if_pos hbad]
  | s :: ss, bufLen, h, hbad => by
    rw [List.chain'_cons] at h
    have h1 : ¬ s ≤ bufLen := by omega
    simp only [List.map_cons, List.cons_append, adapterLoop, if_neg h1, List.append_eq]
    rw [List.getLastD_cons] at hbad
    rw [adapterLoop_noGrowth bad rest ss s h.2 hbad]
    simp [Nat.add_assoc]

/-- Claim C6: the buffer-growth loop terminates.  With strictly increasing
required sizes `S0 < S1 < ... < Sn` (each above the buffer supplied,
starting from the recommended 15000) followed by a success, the call
makes exactly `n + 2` OS calls and returns the success result; and an
overflow response whose required size does not exceed the buffer
already supplied makes the call return an error after that attempt
instead of looping. -/
theorem c6_buffer_loop (ss : List Nat) (lOut bad : Nat) (rest : List GAAResponse)
    (hgrow : List.Chain' (· < ·) (initialBufSize :: ss))
    (hbad : bad ≤ ss.getLastD initialBufSize) :
    adapterAddressesRun (ss.map GAAResponse.bufferOverflow ++ [GAAResponse.success lOut])
      = ((if lOut = 0 then GAAResult.okEmpty else GAAResult.ok), ss.length + 1)
    ∧ adapterAddressesRun (ss.map GAAResponse.bufferOverflow
          ++ GAAResponse.bufferOverflow bad :: rest)
      = (GAAResult.noGrowth, ss.length + 1) :=
  ⟨adapterLoop_growth lOut ss initialBufSize hgrow,
   adapterLoop_noGrowth bad rest ss initialBufSize hgrow hbad⟩

/-- Claim C6 witness: two growth rounds then success (three OS calls), and a
repeated-size overflow ending in an error after three OS calls. -/
theorem c6_witness :
    (List.Chain' (· < ·) (initialBufSize :: [20000, 40000])
      ∧ (40000 : Nat) ≤ [20000, 40000].getLastD initialBufSize)
    ∧ adapterAddressesRun ([20000, 40000].map GAAResponse.bufferOverflow
          ++ [GAAResponse.success 7])
      = (GAAResult.ok, 3)
    ∧ adapterAddressesRun ([20000, 40000].map GAAResponse.bufferOverflow
          ++ GAAResponse.bufferOverflow 40000 :: [])
      = (GAAResult.noGrowth, 3) := by
  have h := c6_buffer_loop [20000, 40000] 7 40000 []
    (by norm_num [List.chain'_cons, initialBufSize]) (by decide)
  exact ⟨⟨by norm_num [List.chain'_cons, initialBufSize], by decide⟩, h.1, h.2⟩

/-! ## The SetDNS retry driver -/

theorem setDNSLoop_allFail (outcomes : Nat → Option String) :
    ∀ (b i : Nat) (last : Option String), 1 ≤ b →
      (∀ j, i ≤ j → j < i + b → outcomes j ≠ none) →
      setDNSLoop outcomes b i last = (outcomes (i + b - 1), i + b)
  | 0, _, _ => fun h _ => absurd h (by omega)
  | b + 1, i, last => fun _ hfail => by
    have hi : outcomes i ≠ none := hfail i (le_refl i) (by omega)
    cases ho : outcomes i with
    | none => exact absurd ho hi
    | some e =>
      simp only [setDNSLoop, ho]
      cases b with
      | zero =>
        simp only [setDNSLoop]
        have h1 : i + 1 - 1 = i := by omega
        rw [h1, ho]
      | succ b' =>
        rw [setDNSLoop_allFail outcomes (b' + 1) (i + 1) (some e) (by omega)
          (fun j hj1 hj2 => hfail j (by omega) (by omega))]
        have h1 : i + 1 + (b' + 1) - 1 = i + (b' + 1 + 1) - 1 := by omega
        have h2 : i + 1 + (b' + 1) = i + (b' + 1 + 1) := by omega
        rw [h1, h2]

theorem setDNSLoop_firstSuccess (outcomes : Nat → Option String) :
    ∀ (b i k : Nat) (last : Option String), i ≤ k → k < i + b →
      (∀ j, i ≤ j → j < k → outcomes j ≠ none) → outcomes k = none →
      setDNSLoop outcomes b i last = (none, k + 1)
  | 0, i, k, _ => fun _ h2 _ _ => absurd h2 (by omega)
  | b + 1, i, k, last => fun hik hkb hfail hk => by
    by_cases heq : k = i
    · subst heq
      simp only [setDNSLoop, hk]
    · have hlt : i < k := by omega
      have hi : outcomes i ≠ none := hfail i (le_refl i) hlt
      cases ho : outcomes i with
      | none => exact absurd ho hi
      | some e =>
        simp only [setDNSLoop, ho]
        exact setDNSLoop_firstSuccess outcomes b (i + 1) k (some e) (by omega) (by omega)
          (fun j hj1 hj2 => hfail j (by omega) hj2) hk

/-- Claim C9: the retry driver around `trySet`.  If attempt `k` is the first
success and the deadline allows it, the driver stops right there
having made `k + 1` attempts and returns success; if every attempt the
deadline allows fails (sleeping one fixed tick after each failure),
the driver returns the error of the last attempt after exactly
`budget` attempts. -/
theorem c9_retry_driver (outcomes : Nat → Option String) (budget : Nat) :
    (∀ k, k < budget → (∀ j, j < k → outcomes j ≠ none) → outcomes k = none →
      setDNSRetry outcomes budget = (none, k + 1))
    ∧ (1 ≤ budget → (∀ j, j < budget → outcomes j ≠ none) →
      setDNSRetry outcomes budget = (outcomes (budget - 1), budget)) := by
  constructor
  · intro k hk hfail hsucc
    exact setDNSLoop_firstSuccess outcomes budget 0 k none (by omega) (by omega)
      (fun j _ hj2 => hfail j hj2) hsucc
  · intro hb hfail
    have h := setDNSLoop_allFail outcomes budget 0 none hb (fun j _ hj2 => hfail j (by omega))
    simpa using h

/-- Claim C9 witness: two failures then a success within a budget of five
deadline checks: the driver returns success after three attempts. -/
theorem c9_witness :
    ((2 : Nat) < 5 ∧ (∀ j, j < 2 → c9Outcomes j ≠ none) ∧ c9Outcomes 2 = none)
    ∧ setDNSRetry c9Outcomes 5 = (none, 3) :=
  ⟨⟨by decide, by decide, by decide⟩,
   (c9_retry_driver c9Outcomes 5).1 2 (by decide) (by decide) (by decide)⟩

/-! ## The DoH GET contract -/

/-- Claim C7: given a query that packs successfully, `Resolve` issues exactly
one GET request, to `<endpoint>?dns=<unpadded URL-safe base64 of the
packed query>`, carrying the `Content-Type` and `Accept`
`application/dns-message` headers; when the exchange yields a response
whose body is fully read, a 200 status makes `Resolve` return the
unpacked body (or its decode error), and any other status makes it
return an error carrying the status code and the full body, with no
message. -/
theorem c7_resolve_contract {Msg : Type}
    (pack : Msg → Except String (List Nat)) (unpack : List Nat → Except String Msg)
    (doer : HttpRequest → HttpResult)
    (r : DohResolverS) (msg : Msg) (data : List Nat)
    (hpack : pack msg = Except.ok data) :
    (dohResolve pack unpack doer r msg).requests = [dohRequest r.endpoint data]
    ∧ (dohRequest r.endpoint data).method = "GET"
    ∧ (dohRequest r.endpoint data).url = r.endpoint ++ "?dns=" ++ b64String data
    ∧ (dohRequest r.endpoint data).headers
        = [("Content-Type", "application/dns-message"),
           ("Accept", "application/dns-message")]
    ∧ (∀ resp : HttpResponse,
        doer (dohRequest r.endpoint data) = HttpResult.response resp none →
        ((resp.statusCode = 200 →
          (dohResolve pack unpack doer r msg).result
            = match unpack resp.body with
              | Except.ok m => Except.ok m
              | Except.error e => Except.error (ResolveError.unpackError e))
        ∧ (resp.statusCode ≠ 200 →
          (dohResolve pack unpack doer r msg).result
            = Except.error (ResolveError.wrongResponse resp.body resp.statusCode)))) := by
  refine ⟨?_, rfl, rfl, rfl, ?_⟩
  · simp only [dohResolve, hpack]
    cases hdo : doer (dohRequest r.endpoint data) with
    | doError e => rfl
    | response resp readErr =>
      cases readErr with
      | some e => rfl
      | none =>
        by_cases hs : resp.statusCode ≠ 200
        · simp only [if_pos hs]
        · simp only [if_neg hs]
          cases unpack resp.body <;> rfl
  · intro resp hdo
    constructor
    · intro h200
      have hs : ¬ resp.statusCode ≠ 200 := by omega
      simp only [dohResolve, hpack, hdo, if_neg hs]
      cases unpack resp.body <;> rfl
    · intro hne
      simp only [dohResolve, hpack, hdo, if_pos hne]

/-- Claim C7 witness: a one-byte query against a stub answering 200 with a
two-byte body; the request URL carries the base64 encoding `BQ` of the
packed byte `5` and the result is the unpacked answer. -/
theorem c7_witness :
    natPack 5 = Except.ok [5]
    ∧ (dohResolve natPack natUnpack c7Doer c7Resolver 5).requests
        = [dohRequest "https://dns.example" [5]]
    ∧ (dohRequest "https://dns.example" [5]).url = "https://dns.example?dns=BQ"
    ∧ (dohResolve natPack natUnpack c7Doer c7Resolver 5).result = Except.ok 2 := by
  have h := c7_resolve_contract natPack natUnpack c7Doer c7Resolver 5 [5] rfl
  refine ⟨rfl, h.1, by decide, ?_⟩
  exact ((h.2.2.2.2 ⟨200, [1, 2]⟩ rfl).1 rfl).trans rfl

/-! ## DoH3 transport-failure recovery -/

/-- Claim C1 counterexample: a DoH3 resolver whose exchange fails at the
transport level still holds the very same round-tripper instance after
the failing call — the handle is closed but never discarded or
replaced, contradicting the claim that it is no longer the same
instance. -/
theorem c1_counterexample :
    (dohResolve natPack natUnpack c1Doer c1Resolver 0).result
      = Except.error (ResolveError.doError "connection reset")
    ∧ (dohResolve natPack natUnpack c1Doer c1Resolver 0).resolverAfter.http3RoundTripper
      = c1Resolver.http3RoundTripper :=
  ⟨rfl, rfl⟩

/-- Claim C1 (as amended): on a transport-level failure the DoH3 variant
closes the shared HTTP/3 round-tripper before returning the error, but
the resolver keeps holding the same round-tripper instance — the next
`Resolve` call passes the identical handle to the HTTP client rather
than a newly created one. -/
theorem c1_close_keeps_instance {Msg : Type}
    (pack : Msg → Except String (List Nat)) (unpack : List Nat → Except String Msg)
    (doer : HttpRequest → HttpResult)
    (r : DohResolverS) (msg : Msg) (data : List Nat) (e : String)
    (h3 : r.isDoH3 = true) (hpack : pack msg = Except.ok data)
    (hdo : doer (dohRequest r.endpoint data) = HttpResult.doError e) :
    (dohResolve pack unpack doer r msg).result = Except.error (ResolveError.doError e)
    ∧ (dohResolve pack unpack doer r msg).closedRoundTrippers = [r.http3RoundTripper]
    ∧ (dohResolve pack unpack doer r msg).resolverAfter = r := by
  refine ⟨?_, ?_, ?_⟩ <;> simp [dohResolve, hpack, hdo, h3]

/-- Claim C1 witness for the amended statement: the concrete DoH3 resolver
with a failing exchange closes round-tripper 42 and keeps it. -/
theorem c1_witness :
    (c1Resolver.isDoH3 = true ∧ natPack 5 = Except.ok [5]
      ∧ c1Doer (dohRequest c1Resolver.endpoint [5])
          = HttpResult.doError "connection reset")
    ∧ ((dohResolve natPack natUnpack c1Doer c1Resolver 5).result
        = Except.error (ResolveError.doError "connection reset")
      ∧ (dohResolve natPack natUnpack c1Doer c1Resolver 5).closedRoundTrippers
        = [c1Resolver.http3RoundTripper]
      ∧ (dohResolve natPack natUnpack c1Doer c1Resolver 5).resolverAfter = c1Resolver) :=
  ⟨⟨rfl, rfl, rfl⟩,
   c1_close_keeps_instance natPack natUnpack c1Doer c1Resolver 5 [5]
     "connection reset" rfl rfl rfl⟩

/-! ## The site-local discovery filter -/

/-- Claim C3: evaluating `nameservers` at the failing input.  `fec1::` lies
inside `fec0::/10` (first byte `fe`, top two bits of the second byte
set), yet the returned sequence contains it, because the filter tests
the second byte against exactly `c0`; `fec0::` itself is discarded. -/
theorem c3_fec0_filter_evaluation :
    nameservers [⟨[some (Sockaddr.inet6 fec1Bytes)]⟩] = ["[fec1::]:53"]
    ∧ nameservers [⟨[some (Sockaddr.inet6 fec0Bytes)]⟩] = []
    ∧ (fec1Bytes.getD 0 0 = 0xfe ∧ fec1Bytes.getD 1 0 &&& 0xc0 = 0xc0) := by
  refine ⟨by decide, by decide, by decide, by decide⟩

end Ctrld

